import Mathlib

/-!
Shallow embedding of `pyxtal/interface/vasp.py`: the staged VASP optimization
pipeline (class `VASP` with `set_vasp`, `read_OUTCAR`, `read_bandgap`, `run`,
`clean`, and the drivers `single_optimize` and `optimize`).

External collaborators (the ASE calculator, the pyxtal structure library
including `to_ase` / `from_seed` / `optimize_lattice`, the `vasprun` parser and
the `good_lattice` predicate) are out of the module's scope; they are modelled
as opaque data and environment-provided outcomes, exactly as the module only
observes their results or the exceptions they raise.

Python exceptions are modelled by the `PyErr` type; `run`'s
`except (ValueError, UnboundLocalError)` clause corresponds to the
`caughtByRun` predicate.  The process current working directory is threaded
explicitly as a `String` (an `os.chdir(p)` is modelled as setting the cwd to
`p`; the restoring `os.chdir(cwd)` sets it back to the saved absolute value).
Floats are modelled as rationals.
-/

set_option maxRecDepth 100000

namespace PyXtalVASP

/-- Python exception classes that can arise in this module. -/
inductive PyErr
  | valueError
  | unboundLocal
  | fileNotFound
  | indexError
  | zeroDivision
  | notImplemented
  | otherErr
deriving DecidableEq, Repr

/-- The exception classes intercepted by `VASP.run`'s
`except (ValueError, UnboundLocalError)` clause. -/
def caughtByRun : PyErr → Bool
  | .valueError => true
  | .unboundLocal => true
  | _ => false

/- ## Character-list string helpers (models of the Python `str` operations
used by `read_OUTCAR`) -/

/-- Strip leading and trailing whitespace (model of Python `str.strip`,
applied implicitly by `int(...)` / `float(...)`). -/
def trimWs (cs : List Char) : List Char :=
  ((cs.dropWhile Char.isWhitespace).reverse.dropWhile Char.isWhitespace).reverse

/-- Model of Python `str.split(sep)` for a one-character separator:
splits at every occurrence, keeping empty fields. -/
def splitOnChar (c : Char) : List Char → List (List Char)
  | [] => [[]]
  | a :: rest =>
    match splitOnChar c rest with
    | [] => if a = c then [[], []] else [[a]]
    | t :: ts => if a = c then [] :: t :: ts else (a :: t) :: ts

/-- Split at every whitespace character, keeping empty fields. -/
def splitOnWs : List Char → List (List Char)
  | [] => [[]]
  | a :: rest =>
    match splitOnWs rest with
    | [] => [[a]]
    | t :: ts => if a.isWhitespace then [] :: t :: ts else (a :: t) :: ts

/-- Model of Python `str.split()` with no argument: split on whitespace runs,
discarding empty fields. -/
def pySplit (cs : List Char) : List (List Char) :=
  (splitOnWs cs).filter (fun t => t ≠ [])

/-- Substring containment test (model of Python `line.rfind(pat) > -1`). -/
def strContainsL (pat : List Char) : List Char → Bool
  | [] => pat.isPrefixOf ([] : List Char)
  | a :: rest => pat.isPrefixOf (a :: rest) || strContainsL pat rest

/-- Numeric value of a digit string. -/
def digitsVal (cs : List Char) : ℕ :=
  cs.foldl (fun a c => a * 10 + (c.toNat - 48)) 0

/-- Parse a nonempty all-digit string; `none` models a `ValueError`. -/
def digitsToNat (cs : List Char) : Option ℕ :=
  if cs ≠ [] ∧ cs.all Char.isDigit then some (digitsVal cs) else none

/-- Model of Python `int(s)` on decimal integer literals
(optional sign, surrounding whitespace). `none` models a `ValueError`. -/
def pyInt? (cs0 : List Char) : Option ℤ :=
  let cs := trimWs cs0
  match cs with
  | '-' :: rest => (digitsToNat rest).map fun n => -(n : ℤ)
  | '+' :: rest => (digitsToNat rest).map fun n => (n : ℤ)
  | _ => (digitsToNat cs).map fun n => (n : ℤ)

/-- Magnitude part of a decimal float literal: `digits`, `digits.digits`,
`digits.` or `.digits`. -/
def pyFloatMag (cs : List Char) : Option ℚ :=
  match splitOnChar '.' cs with
  | [ip] => (digitsToNat ip).map fun n => (n : ℚ)
  | [ip, fp] =>
    if ip = [] ∧ fp = [] then none
    else
      match (if ip = [] then some 0 else digitsToNat ip),
            (if fp = [] then some 0 else digitsToNat fp) with
      | some a, some b => some ((a : ℚ) + (b : ℚ) / (10 : ℚ) ^ fp.length)
      | _, _ => none
  | _ => none

/-- Model of Python `float(s)` on decimal literals (optional sign,
surrounding whitespace; exponent forms are not needed by the module's
inputs). `none` models a `ValueError`. -/
def pyFloat? (cs0 : List Char) : Option ℚ :=
  let cs := trimWs cs0
  match cs with
  | '-' :: rest => (pyFloatMag rest).map Neg.neg
  | '+' :: rest => pyFloatMag rest
  | _ => pyFloatMag cs

/- ## Opaque collaborator data -/

/-- Opaque ASE `Atoms` object; only its length (`len(self.structure)`) is
observed by the module, the tag keeps distinct objects distinct. -/
structure AtomsObj where
  natoms : ℕ
  tag : ℕ
deriving DecidableEq, Repr

/-- Opaque pyxtal structure object. -/
structure PStruct where
  tag : ℕ
deriving DecidableEq, Repr

/-- Opaque forces array (`self.structure.get_forces()` result). -/
structure ForceArr where
  tag : ℕ
deriving DecidableEq, Repr

/-- Opaque pseudopotential-override mapping (the `setup` argument). -/
structure SetupMap where
  tag : ℕ
deriving DecidableEq, Repr

/- ## The VASP calculator object state -/

/-- The mutable attributes of a `VASP` instance
(`self.structure`, `self.folder`, `self.pstress`, `self.energy`, ...). -/
structure VASPState where
  atoms : AtomsObj
  folder : String
  pstress : ℚ
  energy : Option ℚ
  energy_per_atom : Option ℚ
  stress : Option Unit
  forces : Option ForceArr
  gap : Option ℚ
  cputime : ℚ
  ncore : Option ℤ
  error : Bool
deriving DecidableEq, Repr

/-- The attribute values assigned by `VASP.__init__` once the input has been
accepted (structure stored, `pstress = 0`, result fields `None`, `cputime = 0`,
`error = True`). -/
def freshState (a : AtomsObj) (path : String) : VASPState :=
  { atoms := a, folder := path, pstress := 0, energy := none,
    energy_per_atom := none, stress := none, forces := none, gap := none,
    cputime := 0, ncore := none, error := true }

/-- The possible runtime types of the `struc` argument of `VASP.__init__`:
a pyxtal structure, an ASE `Atoms` object, or anything else. -/
inductive StrucInput
  | pyx (p : PStruct)
  | atoms (a : AtomsObj)
  | other
deriving DecidableEq, Repr

/-- Model of `VASP.__init__(struc, path)`.  A pyxtal input is converted with
`struc.to_ase()` (the external conversion `toAse`); a non-`Atoms` input raises
`NotImplementedError` before any attribute is set and before `os.makedirs`.
The second component records whether `os.makedirs(path)` was performed
(it is run only when the directory does not already exist). -/
def VASP_init (toAse : PStruct → AtomsObj) (inp : StrucInput) (path : String)
    (dirExists : Bool) : Except PyErr VASPState × Bool :=
  match inp with
  | .pyx p => (.ok (freshState (toAse p) path), !dirExists)
  | .atoms a => (.ok (freshState a path), !dirExists)
  | .other => (.error .notImplemented, false)

/- ## set_vasp -/

/-- The fully resolved calculator configuration: the merged
`dict(default0, **default1)` handed to `Vasp(**dict_vasp)`. -/
structure IncarConfig where
  xc : String
  npar : ℕ
  kgamma : Bool
  lcharg : Bool
  lwave : Bool
  ibrion : ℕ
  pstress : ℚ
  setups : Option SetupMap
  prec : String
  algo : Option String
  kspacing : ℚ
  isif : ℕ
  ediff : ℚ
  nsw : ℕ
  potim : Option ℚ
  encut : Option ℕ
deriving DecidableEq, Repr

/-- Model of `VASP.set_vasp(level, pstress, setup)`.  It first assigns
`self.pstress = pstress` (a state mutation), then selects the level table
entry; a level outside `{0,1,2,3,4}` leaves the local `default1` unassigned so
that `dict(default0, **default1)` raises `UnboundLocalError`. -/
def set_vasp (s : VASPState) (level : ℤ) (pstress : ℚ)
    (setup : Option SetupMap) : VASPState × Except PyErr IncarConfig :=
  let s1 := { s with pstress := pstress }
  let base := fun (prec : String) (algo : Option String) (kspacing : ℚ)
      (isif : ℕ) (ediff : ℚ) (nsw : ℕ) (potim : Option ℚ)
      (encut : Option ℕ) =>
    ({ xc := "pbe", npar := 8, kgamma := true, lcharg := false, lwave := false,
       ibrion := 2, pstress := pstress * 10, setups := setup, prec := prec,
       algo := algo, kspacing := kspacing, isif := isif, ediff := ediff,
       nsw := nsw, potim := potim, encut := encut } : IncarConfig)
  if level = 0 then
    (s1, .ok (base "low" (some "normal") (2/5) 4 (1/100) 10 (some (1/50)) none))
  else if level = 1 then
    (s1, .ok (base "normal" (some "normal") (3/10) 3 (1/1000) 25 (some (1/20)) none))
  else if level = 2 then
    (s1, .ok (base "accurate" none (1/5) 3 (1/1000) 50 (some (1/10)) none))
  else if level = 3 then
    (s1, .ok (base "accurate" none (3/20) 3 (1/10000) 50 none (some 600)))
  else if level = 4 then
    (s1, .ok (base "accurate" none (3/20) 3 (1/10000) 0 none (some 600)))
  else
    (s1, .error .unboundLocal)

/- ## read_OUTCAR -/

/-- Does the line contain `'running on  '` (two trailing spaces)? -/
def lineMatchesRunning (l : String) : Bool :=
  strContainsL "running on  ".data l.data

/-- Does the line contain `'Elapsed time '`? -/
def lineMatchesElapsed (l : String) : Bool :=
  strContainsL "Elapsed time ".data l.data

/-- Body of `read_OUTCAR`'s loop for one line: on a `running on` line take
`int(line.split()[2])` (a missing token is an `IndexError`, a malformed one a
`ValueError`); on an `Elapsed time` line take
`float(line.split(':')[-1])`. -/
def read_OUTCAR_step (acc : ℚ × ℤ) (l : String) : Except PyErr (ℚ × ℤ) :=
  if lineMatchesRunning l then
    match (pySplit l.data).get? 2 with
    | none => .error .indexError
    | some tok =>
      match pyInt? tok with
      | none => .error .valueError
      | some n => .ok (acc.1, n)
  else if lineMatchesElapsed l then
    match pyFloat? ((splitOnChar ':' l.data).getLastD []) with
    | none => .error .valueError
    | some t => .ok (t, acc.2)
  else
    .ok acc

/-- The line scan of `read_OUTCAR`, starting from `time = 0`, `ncore = 0`. -/
def read_OUTCAR_scan (lines : List String) : Except PyErr (ℚ × ℤ) :=
  lines.foldlM read_OUTCAR_step (0, 0)

/-- Model of `VASP.read_OUTCAR(path)` as a reader of the OUTCAR artifact contents:
`none` models an absent file, on which `open(path, 'r')` raises
`FileNotFoundError`; a present file is its list of lines.  On success it
yields the `(time, ncore)` pair assigned to `self.cputime` / `self.ncore`. -/
def read_OUTCAR (file : Option (List String)) : Except PyErr (ℚ × ℤ) :=
  match file with
  | none => .error .fileNotFound
  | some lines => read_OUTCAR_scan lines

/- ## clean -/

/-- Which of the four artifacts deleted by `VASP.clean` are present in the
working directory. -/
structure FileSet where
  poscar : Bool
  potcar : Bool
  incar : Bool
  outcar : Bool
deriving DecidableEq, Repr

/-- Model of `VASP.clean()`: `os.remove` of POSCAR, POTCAR, INCAR, OUTCAR in that
order; a missing file raises `FileNotFoundError`. -/
def cleanFiles (fs : FileSet) : Except PyErr Unit :=
  if fs.poscar = false then .error .fileNotFound
  else if fs.potcar = false then .error .fileNotFound
  else if fs.incar = false then .error .fileNotFound
  else if fs.outcar = false then .error .fileNotFound
  else .ok ()

/- ## run -/

/-- Unit-conversion constant `160.21766` between pressure times volume
and energy. -/
def eConv : ℚ := 16021766 / 100000

instance {ε α : Type} [DecidableEq ε] [DecidableEq α] :
    DecidableEq (Except ε α) := fun a b =>
  match a, b with
  | .error x, .error y => decidable_of_iff (x = y) (by simp)
  | .error _, .ok _ => isFalse (fun h => by cases h)
  | .ok _, .error _ => isFalse (fun h => by cases h)
  | .ok x, .ok y => decidable_of_iff (x = y) (by simp)

/-- One invocation's external world, as observed by `VASP.run`: the outcomes
of `get_potential_energy`, `get_volume`, `get_forces`, the OUTCAR contents,
the outcome of the `vasprun(path).values['gap']` band-gap read, and the
artifact files seen by `clean`. -/
structure RunEnv where
  calcEnergy : Except PyErr ℚ
  volume : ℚ
  forcesRes : Except PyErr ForceArr
  outcar : Option (List String)
  gapRes : Except PyErr ℚ
  files : FileSet
deriving DecidableEq, Repr

/-- The body of `VASP.run`'s `try:` block (after `os.chdir(self.folder)`):
energy, pressure correction, energy per atom (a zero atom count raises
`ZeroDivisionError`), forces, `read_OUTCAR`, optional `read_bandgap`,
optional `clean`, and finally `self.error = False`.  Returns the object state
as mutated so far together with the exception, if one was raised. -/
def runTry (s1 : VASPState) (env : RunEnv) (clean read_gap : Bool) :
    VASPState × Option PyErr :=
  match env.calcEnergy with
  | .error e => (s1, some e)
  | .ok e0 =>
    let eng := if 0 < s1.pstress then e0 + s1.pstress * env.volume / eConv else e0
    let s2 := { s1 with energy := some eng }
    if s2.atoms.natoms = 0 then (s2, some .zeroDivision)
    else
      let s3 := { s2 with energy_per_atom := some (eng / (s2.atoms.natoms : ℚ)) }
      match env.forcesRes with
      | .error e => (s3, some e)
      | .ok f =>
        let s4 := { s3 with forces := some f }
        match read_OUTCAR env.outcar with
        | .error e => (s4, some e)
        | .ok tn =>
          let s5 := { s4 with cputime := tn.1, ncore := some tn.2 }
          match (if read_gap then (env.gapRes.map fun g => { s5 with gap := some g })
                 else .ok s5) with
          | .error e => (s5, some e)
          | .ok s6 =>
            match (if clean then cleanFiles env.files else .ok ()) with
            | .error e => (s6, some e)
            | .ok _ => ({ s6 with error := false }, none)

/-- Result of one `VASP.run` call: the final object state, the exception
propagating out of `run` (if any), and the process current working directory
when `run` terminates. -/
structure RunOut where
  state : VASPState
  exc : Option PyErr
  cwd : String
deriving DecidableEq, Repr

/-- The code after `VASP.run`'s `try:` body: a caught exception runs the
`except` handler (`cp OUTCAR Error-OUTCAR`, no modelled state) and falls
through; the final `os.chdir(cwd)` restores the saved directory on the
fall-through paths only, so an uncaught exception leaves the process in the
stage working directory `inDir`. -/
def runFinish (inDir cwd0 : String) : VASPState × Option PyErr → RunOut
  | (st, none) => { state := st, exc := none, cwd := cwd0 }
  | (st, some e) =>
    if caughtByRun e then { state := st, exc := none, cwd := cwd0 }
    else { state := st, exc := some e, cwd := inDir }

/-- Model of `VASP.run(setup, pstress, level, clean, read_gap)`.
`cwd = os.getcwd()` is saved first; `set_vasp` is called BEFORE the `try:`
block, so its `UnboundLocalError` propagates without entering the working
directory; inside the `try:` the working directory is `self.folder`.
An exception of a class listed in `except (ValueError, UnboundLocalError)` is
caught; the final `os.chdir(cwd)` sits AFTER the try/except, so it runs on
normal completion and on a caught exception, but not when an uncaught
exception propagates. -/
def run (s : VASPState) (env : RunEnv) (setup : Option SetupMap) (pstress : ℚ)
    (level : ℤ) (clean read_gap : Bool) (cwd0 : String) : RunOut :=
  match set_vasp s level pstress setup with
  | (s1, .error e) => { state := s1, exc := some e, cwd := cwd0 }
  | (s1, .ok _cfg) => runFinish s1.folder cwd0 (runTry s1 env clean read_gap)

/- ## single_optimize -/

/-- The quadruple returned by `single_optimize`:
`(structure, energy_per_atom, cputime, error)`. -/
abbrev SOQuad := Option PStruct × ℚ × ℚ × Bool

/-- Result of one `single_optimize` call: either the returned quadruple or a
propagating exception, together with the process cwd at termination. -/
structure SOOut where
  res : Except PyErr SOQuad
  cwd : String
deriving DecidableEq, Repr

/-- One stage's external world: the `run` environment, whether the working
directory already exists, and the outcomes of the external
`calc.to_pyxtal()` conversion and `struc.optimize_lattice()`
canonicalization (both may raise; both are out-of-scope collaborators). -/
structure StageEnv where
  renv : RunEnv
  dirExists : Bool
  toPyxtalRes : Except PyErr PStruct
  optLat : PStruct → Except PyErr PStruct

/-- Model of `single_optimize(struc, level, pstress, setup, path, clean)`:
construct `VASP(struc, path)`, call `calc.run(setup, pstress, level,
clean=clean)` (so `read_gap=False`); if `calc.error` return the sentinel
quadruple `(None, 100000, 0, True)`; otherwise convert back to pyxtal and
canonicalize the lattice inside a bare `try`/`except` whose handler returns
the same sentinel quadruple. -/
def single_optimize (env : StageEnv) (toAse : PStruct → AtomsObj)
    (inp : StrucInput) (level : ℤ) (pstress : ℚ) (setup : Option SetupMap)
    (path : String) (clean : Bool) (cwd0 : String) : SOOut :=
  match VASP_init toAse inp path env.dirExists with
  | (.error e, _) => { res := .error e, cwd := cwd0 }
  | (.ok s0, _) =>
    let r := run s0 env.renv setup pstress level clean false cwd0
    match r.exc with
    | some e => { res := .error e, cwd := r.cwd }
    | none =>
      if r.state.error then { res := .ok (none, 100000, 0, true), cwd := r.cwd }
      else
        match env.toPyxtalRes with
        | .error _ => { res := .ok (none, 100000, 0, true), cwd := r.cwd }
        | .ok ps =>
          match env.optLat ps with
          | .error _ => { res := .ok (none, 100000, 0, true), cwd := r.cwd }
          | .ok ps2 =>
            { res := .ok (some ps2, r.state.energy_per_atom.getD 0,
                          r.state.cputime, r.state.error),
              cwd := r.cwd }

/- ## optimize -/

/-- The `struc` loop variable handed to the next `single_optimize` call:
a structure when the previous stage yielded one, otherwise Python's `None`
(which `VASP.__init__` would reject). -/
def toInput : Option PStruct → StrucInput
  | some p => .pyx p
  | none => .other

/-- Result of the `optimize` pipeline: the returned quadruple or propagating
exception, the final cwd, and (instrumentation for the ordering guarantee)
the number of `single_optimize` invocations that were performed. -/
structure OptOut where
  res : Except PyErr SOQuad
  cwd : String
  invoked : ℕ
deriving DecidableEq, Repr

/-- The `for i, level in enumerate(levels)` loop of `optimize`, with loop
state `(i, struc, time_total, cwd)`.  Stage `i` observes the external world
`envs i`.  Each iteration adds the stage's time to `time_total` and then
returns the sentinel `(None, 100000, 0, True)` if the stage reported an error
or `good_lattice(struc)` (the external predicate `gl`) fails; after the last
level it returns `(struc, eng, time_total, error)`.  The `[]` case is
`optimize`'s fall-through on an empty `levels` list, where the loop never
binds `eng`/`error` and the `return` raises `UnboundLocalError`. -/
def optimizeLoop (envs : ℕ → StageEnv) (toAse : PStruct → AtomsObj)
    (gl : Option PStruct → Bool) (pstress : ℚ) (setup : Option SetupMap)
    (path : String) (clean : Bool) :
    List ℤ → ℕ → StrucInput → ℚ → String → OptOut
  | [], _, _, _, cwd => { res := .error .unboundLocal, cwd := cwd, invoked := 0 }
  | level :: rest, i, inp, tt, cwd =>
    let so := single_optimize (envs i) toAse inp level pstress setup path clean cwd
    match so.res with
    | .error e => { res := .error e, cwd := so.cwd, invoked := 1 }
    | .ok (strucO, eng, t, err) =>
      let tt2 := tt + t
      if err || !gl strucO then
        { res := .ok (none, 100000, 0, true), cwd := so.cwd, invoked := 1 }
      else
        match rest with
        | [] => { res := .ok (strucO, eng, tt2, err), cwd := so.cwd, invoked := 1 }
        | r0 :: rs =>
          let out := optimizeLoop envs toAse gl pstress setup path clean
            (r0 :: rs) (i + 1) (toInput strucO) tt2 so.cwd
          { res := out.res, cwd := out.cwd, invoked := out.invoked + 1 }

/-- Model of `optimize(struc, path, levels, pstress, setup, clean)`: run the loop from
position 0 on the caller's pyxtal structure with `time_total = 0`. -/
def optimize (envs : ℕ → StageEnv) (toAse : PStruct → AtomsObj)
    (gl : Option PStruct → Bool) (struc : PStruct) (path : String)
    (levels : List ℤ) (pstress : ℚ) (setup : Option SetupMap) (clean : Bool)
    (cwd0 : String) : OptOut :=
  optimizeLoop envs toAse gl pstress setup path clean levels 0 (.pyx struc) 0 cwd0

/-- The loop state `(struc, time_total, cwd)` of `optimize` just before
iteration number `k` (0-based), provided iterations `0 .. k-1` all completed
without an exception, without a reported stage error and with a
`good_lattice` structure; `none` otherwise.  This mirrors the stepping of
`optimizeLoop` and lets "stages 0..k-1 succeeded" be stated directly. -/
def loopState (envs : ℕ → StageEnv) (toAse : PStruct → AtomsObj)
    (gl : Option PStruct → Bool) (pstress : ℚ) (setup : Option SetupMap)
    (path : String) (clean : Bool) :
    ℕ → List ℤ → ℕ → StrucInput → ℚ → String →
    Option (StrucInput × ℚ × String)
  | 0, _, _, inp, tt, cwd => some (inp, tt, cwd)
  | _ + 1, [], _, _, _, _ => none
  | k + 1, level :: rest, i, inp, tt, cwd =>
    let so := single_optimize (envs i) toAse inp level pstress setup path clean cwd
    match so.res with
    | .error _ => none
    | .ok (strucO, _, t, err) =>
      if err || !gl strucO then none
      else loopState envs toAse gl pstress setup path clean
        k rest (i + 1) (toInput strucO) (tt + t) so.cwd

/- ## Concrete instances used by the closed check theorems -/

/-- A concrete 4-atom ASE structure. -/
def atomsC : AtomsObj := ⟨4, 0⟩

/-- A concrete `to_ase` conversion producing 4-atom objects. -/
def toAseC : PStruct → AtomsObj := fun p => ⟨4, p.tag⟩

/-- A concrete input pyxtal structure. -/
def strucC : PStruct := ⟨10⟩

/-- The pyxtal structure produced by the concrete `to_pyxtal` conversion. -/
def psC1 : PStruct := ⟨11⟩

/-- All four cleanup artifacts present. -/
def filesAll : FileSet := ⟨true, true, true, true⟩

/-- A fully successful run environment: energy `-28`, volume `160.21766`,
an OUTCAR whose elapsed-time line reports 5 seconds, gap `1`. -/
def envOkC : RunEnv :=
  { calcEnergy := .ok (-28), volume := eConv, forcesRes := .ok ⟨0⟩,
    outcar := some ["Elapsed time : 5"], gapRes := .ok 1, files := filesAll }

/-- A run environment whose calculator invocation raises `ValueError`. -/
def envFailC : RunEnv := { envOkC with calcEnergy := .error .valueError }

/-- A run environment with the OUTCAR artifact absent. -/
def envNoOutcarC : RunEnv := { envOkC with outcar := none }

/-- A run environment whose band-gap read raises `ValueError`. -/
def envGapFailC : RunEnv := { envOkC with gapRes := .error .valueError }

/-- A fresh `VASP` object on the concrete structure, working directory
`tmp`. -/
def s0C : VASPState := freshState atomsC "tmp"

/-- A fully successful stage environment. -/
def stageOkC : StageEnv :=
  { renv := envOkC, dirExists := true, toPyxtalRes := .ok psC1,
    optLat := fun p => .ok p }

/-- A stage environment whose calculator invocation fails. -/
def stageFailC : StageEnv := { stageOkC with renv := envFailC }

/-- A stage environment where the calculator succeeds but the conversion
back to pyxtal raises. -/
def stageConvFailC : StageEnv := { stageOkC with toPyxtalRes := .error .valueError }

/-- Stage worlds for the pipeline checks: stage 0 succeeds, every later
stage fails in the calculator. -/
def envsC : ℕ → StageEnv := fun i => if i = 0 then stageOkC else stageFailC

/-- A `good_lattice` predicate accepting everything. -/
def glC : Option PStruct → Bool := fun _ => true

/- ## Helper lemmas -/

/-- For a valid level, `set_vasp` sets `pstress` and returns a
configuration. -/
theorem set_vasp_valid (s : VASPState) (lvl : ℤ) (p : ℚ) (stp : Option SetupMap)
    (h : lvl ∈ ([0, 1, 2, 3, 4] : List ℤ)) :
    ∃ cfg, set_vasp s lvl p stp = ({ s with pstress := p }, .ok cfg) := by
  simp only [List.mem_cons, List.mem_singleton, List.not_mem_nil, or_false] at h
  rcases h with h | h | h | h | h <;> subst h <;> exact ⟨_, rfl⟩

/-- For an invalid level, `set_vasp` still sets `pstress` and raises
`UnboundLocalError`. -/
theorem set_vasp_invalid (s : VASPState) (lvl : ℤ) (p : ℚ) (stp : Option SetupMap)
    (h : lvl ∉ ([0, 1, 2, 3, 4] : List ℤ)) :
    set_vasp s lvl p stp = ({ s with pstress := p }, .error .unboundLocal) := by
  simp only [List.mem_cons, List.mem_singleton, List.not_mem_nil, or_false,
    not_or] at h
  obtain ⟨h0, h1, h2, h3, h4⟩ := h
  simp [set_vasp, h0, h1, h2, h3, h4]

/-- On a valid level, `run` is `runFinish` applied to the `try:` body's
outcome. -/
theorem run_eq_runFinish (s : VASPState) (env : RunEnv) (stp : Option SetupMap)
    (p : ℚ) (lvl : ℤ) (clean rg : Bool) (cwd0 : String)
    (h : lvl ∈ ([0, 1, 2, 3, 4] : List ℤ)) :
    run s env stp p lvl clean rg cwd0 =
      runFinish s.folder cwd0 (runTry { s with pstress := p } env clean rg) := by
  obtain ⟨cfg, hc⟩ := set_vasp_valid s lvl p stp h
  simp [run, hc]

/-- Lemma: `runFinish` keeps the `try:` body's state unchanged. -/
theorem runFinish_state (inDir cwd0 : String) (pr : VASPState × Option PyErr) :
    (runFinish inDir cwd0 pr).state = pr.1 := by
  rcases pr with ⟨st, e⟩
  cases e with
  | none => rfl
  | some e =>
    simp only [runFinish]
    split <;> rfl

/-- Lemma: `runFinish` restores the saved cwd exactly when no exception
propagates. -/
theorem runFinish_exc_none_cwd (inDir cwd0 : String)
    (pr : VASPState × Option PyErr)
    (h : (runFinish inDir cwd0 pr).exc = none) :
    (runFinish inDir cwd0 pr).cwd = cwd0 := by
  rcases pr with ⟨st, e⟩
  cases e with
  | none => rfl
  | some e =>
    simp only [runFinish] at h ⊢
    split at h
    · simp_all [runFinish]
    · simp_all

/- ## C1 -/

/-- C1 (amended): on every exit of `VASP.run` that does not propagate an
exception — normal success and caught calculator failure — the process
current working directory on exit equals the one saved on entry.  (The claim's
third exit path, an uncaught exception from a sub-step, does not restore it;
see the counterexample.) -/
theorem run_restores_cwd_on_nonexceptional_exit (s : VASPState) (env : RunEnv)
    (stp : Option SetupMap) (p : ℚ) (lvl : ℤ) (clean rg : Bool) (cwd0 : String)
    (h : (run s env stp p lvl clean rg cwd0).exc = none) :
    (run s env stp p lvl clean rg cwd0).cwd = cwd0 := by
  by_cases hl : lvl ∈ ([0, 1, 2, 3, 4] : List ℤ)
  · rw [run_eq_runFinish s env stp p lvl clean rg cwd0 hl] at h ⊢
    exact runFinish_exc_none_cwd _ _ _ h
  · rw [run, set_vasp_invalid s lvl p stp hl] at h
    simp at h

/-- C1 witness: a concrete fully successful run exits without exception and
with the entry cwd restored. -/
theorem run_restores_cwd_on_nonexceptional_exit_witness :
    (run s0C envOkC none 0 0 true false "/home").exc = none ∧
    (run s0C envOkC none 0 0 true false "/home").cwd = "/home" := by
  have hexc : (run s0C envOkC none 0 0 true false "/home").exc = none := by
    have h1 : read_OUTCAR_scan ["Elapsed time : 5"] = .ok (5, 0) := by decide
    norm_num [run, runFinish, runTry, set_vasp, s0C, freshState, envOkC, atomsC,
      filesAll, read_OUTCAR, h1, cleanFiles, caughtByRun, eConv]
  exact ⟨hexc,
    run_restores_cwd_on_nonexceptional_exit s0C envOkC none 0 0 true false
      "/home" hexc⟩

/-- C1 counterexample: with the OUTCAR artifact absent, the timing read
raises `FileNotFoundError`, which is not in `run`'s except clause; the
exception propagates and the process is left in the stage working directory
`tmp`, not the entry directory `/home`. -/
theorem run_cwd_not_restored_on_uncaught_exception :
    (run s0C envNoOutcarC none 0 0 true false "/home").exc
        = some .fileNotFound ∧
    (run s0C envNoOutcarC none 0 0 true false "/home").cwd = "tmp" ∧
    "tmp" ≠ "/home" := by
  refine ⟨?_, ?_, by decide⟩ <;>
    norm_num [run, runFinish, runTry, set_vasp, s0C, freshState, envNoOutcarC,
      envOkC, atomsC, filesAll, read_OUTCAR, cleanFiles, caughtByRun, eConv]

/- ## C4 -/

/-- A line matching neither pattern leaves the loop accumulator unchanged. -/
theorem read_OUTCAR_step_nomatch (acc : ℚ × ℤ) (l : String)
    (h1 : lineMatchesRunning l = false) (h2 : lineMatchesElapsed l = false) :
    read_OUTCAR_step acc l = .ok acc := by
  simp [read_OUTCAR_step, h1, h2]

/-- The OUTCAR scan over lines with no matching pattern returns the
accumulator unchanged. -/
theorem read_OUTCAR_foldlM_nomatch :
    ∀ (lines : List String) (acc : ℚ × ℤ),
      (∀ l ∈ lines, lineMatchesRunning l = false ∧ lineMatchesElapsed l = false) →
      List.foldlM read_OUTCAR_step acc lines = .ok acc
  | [], _, _ => rfl
  | l :: ls, acc, h => by
    have hl := h l (List.mem_cons_self l ls)
    have hs := read_OUTCAR_step_nomatch acc l hl.1 hl.2
    have ih := read_OUTCAR_foldlM_nomatch ls acc fun x hx =>
      h x (List.mem_cons_of_mem l hx)
    simp [List.foldlM, hs, ih, Except.bind, Bind.bind, Except.instMonad]

/-- C4 (amended): if the OUTCAR artifact exists but contains neither the
core-count line nor the elapsed-time line, `read_OUTCAR` silently yields the
defaults `(cpuTime 0, coreCount 0)`; but if the artifact file itself is
absent, `open(path, 'r')` raises `FileNotFoundError` instead of degrading to
the defaults. -/
theorem read_OUTCAR_defaults_and_absent_raises (lines : List String)
    (h : ∀ l ∈ lines, lineMatchesRunning l = false ∧ lineMatchesElapsed l = false) :
    read_OUTCAR (some lines) = .ok (0, 0) ∧
    read_OUTCAR none = .error .fileNotFound := by
  refine ⟨?_, rfl⟩
  show read_OUTCAR_scan lines = .ok (0, 0)
  exact read_OUTCAR_foldlM_nomatch lines (0, 0) h

/-- C4 witness: a one-line artifact with no recognized line yields the
defaults; the absent artifact raises. -/
theorem read_OUTCAR_defaults_and_absent_raises_witness :
    (∀ l ∈ (["hello"] : List String),
      lineMatchesRunning l = false ∧ lineMatchesElapsed l = false) ∧
    read_OUTCAR (some ["hello"]) = .ok (0, 0) ∧
    read_OUTCAR none = .error .fileNotFound := by
  have h : ∀ l ∈ (["hello"] : List String),
      lineMatchesRunning l = false ∧ lineMatchesElapsed l = false := by decide
  exact ⟨h, read_OUTCAR_defaults_and_absent_raises ["hello"] h⟩

/-- C4 counterexample: on an absent artifact file `read_OUTCAR` raises
`FileNotFoundError`; it does not degrade to the `(0, 0)` defaults as the
claim states. -/
theorem read_OUTCAR_absent_file_counterexample :
    read_OUTCAR none = .error .fileNotFound ∧
    read_OUTCAR none ≠ .ok (0, 0) := by decide

/- ## C5 -/

/-- C5 (amended): `set_vasp` is deterministic — the produced configuration
depends only on `(level, pstress, setup)`, not on the calculator object's
state — but it is not state-free: it writes the `pstress` argument into the
calculator object, and that is its only mutation. -/
theorem set_vasp_mutates_only_pstress_and_deterministic
    (s s2 : VASPState) (lvl : ℤ) (p : ℚ) (stp : Option SetupMap) :
    (set_vasp s lvl p stp).1 = { s with pstress := p } ∧
    (set_vasp s lvl p stp).2 = (set_vasp s2 lvl p stp).2 := by
  constructor <;> (simp only [set_vasp]; split_ifs <;> rfl)

/-- C5 counterexample: a fresh calculator has `pstress = 0`; after
`set_vasp(level=0, pstress=5)` the object's `pstress` is `5`, so the call
mutated observable calculator state. -/
theorem set_vasp_mutation_counterexample :
    s0C.pstress = 0 ∧ (set_vasp s0C 0 5 none).1.pstress = 5 ∧ (5 : ℚ) ≠ 0 := by
  refine ⟨rfl, ?_, by decide⟩
  simp [set_vasp]

/- ## C8 -/

/-- C8: for a level outside `{0,1,2,3,4}` `set_vasp` raises
(`UnboundLocalError`, the source-level form of the spec's `InvalidLevel`),
and because `run` calls `set_vasp` before its `try:` block, the error
propagates out of the stage runner uncaught even though `UnboundLocalError`
is listed in the except clause; every level inside `{0,1,2,3,4}` yields a
configuration without error. -/
theorem set_vasp_level_domain (s : VASPState) (env : RunEnv)
    (stp : Option SetupMap) (p : ℚ) (clean rg : Bool) (cwd0 : String)
    (lvl : ℤ) :
    (lvl ∉ ([0, 1, 2, 3, 4] : List ℤ) →
      (set_vasp s lvl p stp).2 = .error .unboundLocal ∧
      (run s env stp p lvl clean rg cwd0).exc = some .unboundLocal) ∧
    (lvl ∈ ([0, 1, 2, 3, 4] : List ℤ) →
      ∃ cfg, (set_vasp s lvl p stp).2 = .ok cfg) := by
  constructor
  · intro h
    have hs := set_vasp_invalid s lvl p stp h
    exact ⟨by rw [hs], by rw [run, hs]⟩
  · intro h
    obtain ⟨cfg, hc⟩ := set_vasp_valid s lvl p stp h
    exact ⟨cfg, by rw [hc]⟩

/-- C8 witness: level 7 raises `UnboundLocalError` and it propagates out of
`run`; level 0 synthesizes a configuration. -/
theorem set_vasp_level_domain_witness :
    ((7 : ℤ) ∉ ([0, 1, 2, 3, 4] : List ℤ) ∧
      (set_vasp s0C 7 0 none).2 = .error .unboundLocal ∧
      (run s0C envOkC none 0 7 true false "/home").exc = some .unboundLocal) ∧
    ((0 : ℤ) ∈ ([0, 1, 2, 3, 4] : List ℤ) ∧
      ∃ cfg, (set_vasp s0C 0 0 none).2 = .ok cfg) := by
  have h7 : (7 : ℤ) ∉ ([0, 1, 2, 3, 4] : List ℤ) := by decide
  have h0 : (0 : ℤ) ∈ ([0, 1, 2, 3, 4] : List ℤ) := by decide
  exact ⟨⟨h7, (set_vasp_level_domain s0C envOkC none 0 true false "/home" 7).1 h7⟩,
    ⟨h0, (set_vasp_level_domain s0C envOkC none 0 true false "/home" 0).2 h0⟩⟩

/- ## C9 -/

/-- C9: `VASP.__init__` rejects an input that is neither a pyxtal structure
nor an `Atoms` object with `NotImplementedError` before performing any side
effect (in particular the returned makedirs flag is `false`: the working
directory is not created, and no calculator state is produced); a pyxtal
input is first converted via `to_ase()` and then accepted exactly like a
direct `Atoms` input. -/
theorem VASP_init_type_check (toAse : PStruct → AtomsObj) (path : String)
    (dirExists : Bool) :
    VASP_init toAse .other path dirExists = (.error .notImplemented, false) ∧
    (∀ p : PStruct, VASP_init toAse (.pyx p) path dirExists
        = (.ok (freshState (toAse p) path), !dirExists)) ∧
    (∀ a : AtomsObj, VASP_init toAse (.atoms a) path dirExists
        = (.ok (freshState a path), !dirExists)) :=
  ⟨rfl, fun _ => rfl, fun _ => rfl⟩

/- ## runTry field lemmas -/

/-- Once `get_potential_energy` has succeeded, the `energy` and
`energy_per_atom` attributes hold the (possibly pressure-corrected) energy
and its per-atom value on every later path of the `try:` body. -/
theorem runTry_energy_epa (s1 : VASPState) (env : RunEnv) (clean rg : Bool)
    (e0 : ℚ) (hE : env.calcEnergy = .ok e0) (hn : s1.atoms.natoms ≠ 0) :
    (runTry s1 env clean rg).1.energy
        = some (if 0 < s1.pstress then e0 + s1.pstress * env.volume / eConv else e0) ∧
    (runTry s1 env clean rg).1.energy_per_atom
        = some ((if 0 < s1.pstress then e0 + s1.pstress * env.volume / eConv else e0)
            / (s1.atoms.natoms : ℚ)) := by
  simp only [runTry, hE, hn, if_false]
  rcases lt_or_le 0 s1.pstress with hp | hp
  · simp only [if_pos hp]
    cases rg <;> cases hg : env.gapRes <;>
      (repeat' split) <;> (try subst_eqs) <;> simp_all [Except.map]
  · simp only [if_neg (not_lt.mpr hp)]
    cases rg <;> cases hg : env.gapRes <;>
      (repeat' split) <;> (try subst_eqs) <;> simp_all [Except.map]

/-- A failing band-gap read (with every earlier step succeeding) makes the
`try:` body end in that exception, with the `error` flag left at its incoming
value (it is never reset on a failure path). -/
theorem runTry_gap_failure (s1 : VASPState) (env : RunEnv) (clean : Bool)
    (e0 : ℚ) (f : ForceArr) (tn : ℚ × ℤ) (e : PyErr)
    (hE : env.calcEnergy = .ok e0) (hn : s1.atoms.natoms ≠ 0)
    (hF : env.forcesRes = .ok f) (hO : read_OUTCAR env.outcar = .ok tn)
    (hg : env.gapRes = .error e) :
    (runTry s1 env clean true).2 = some e ∧
    (runTry s1 env clean true).1.error = s1.error := by
  simp [runTry, hE, hn, hF, hO, hg, Except.map]

/-- Lemma: `runFinish` turns a caught exception into a normal (no-exception)
exit. -/
theorem runFinish_exc_caught (inDir cwd0 : String)
    (pr : VASPState × Option PyErr) (e : PyErr) (h : pr.2 = some e)
    (hc : caughtByRun e = true) :
    (runFinish inDir cwd0 pr).exc = none := by
  rcases pr with ⟨st, x⟩
  simp only at h
  subst h
  simp [runFinish, hc]

/-- Lemma: `runFinish` propagates an uncaught exception. -/
theorem runFinish_exc_uncaught (inDir cwd0 : String)
    (pr : VASPState × Option PyErr) (e : PyErr) (h : pr.2 = some e)
    (hc : caughtByRun e = false) :
    (runFinish inDir cwd0 pr).exc = some e := by
  rcases pr with ⟨st, x⟩
  simp only at h
  subst h
  simp [runFinish, hc]

/- ## C7 -/

/-- C7: for a stage run whose calculator evaluation succeeded with raw
energy `e0`, if the external pressure `p` is positive the reported energy is
`e0 + p * volume / 160.21766` (the correction applied exactly once), and if
`p = 0` it is the raw `e0`; in both cases `energy_per_atom` is the reported
energy divided by the atom count. -/
theorem run_pressure_correction (s : VASPState) (env : RunEnv)
    (stp : Option SetupMap) (p : ℚ) (lvl : ℤ) (clean rg : Bool)
    (cwd0 : String) (e0 : ℚ) (hl : lvl ∈ ([0, 1, 2, 3, 4] : List ℤ))
    (hE : env.calcEnergy = .ok e0) (hn : s.atoms.natoms ≠ 0) :
    (0 < p →
      (run s env stp p lvl clean rg cwd0).state.energy
          = some (e0 + p * env.volume / eConv) ∧
      (run s env stp p lvl clean rg cwd0).state.energy_per_atom
          = some ((e0 + p * env.volume / eConv) / (s.atoms.natoms : ℚ))) ∧
    (p = 0 →
      (run s env stp p lvl clean rg cwd0).state.energy = some e0 ∧
      (run s env stp p lvl clean rg cwd0).state.energy_per_atom
          = some (e0 / (s.atoms.natoms : ℚ))) := by
  rw [run_eq_runFinish s env stp p lvl clean rg cwd0 hl]
  rw [runFinish_state]
  have h := runTry_energy_epa { s with pstress := p } env clean rg e0 hE hn
  constructor
  · intro hp
    simpa [hp] using h
  · intro hp
    subst hp
    simpa using h

/-- C7 witness: raw energy `-28`, pressure `2`, volume `160.21766`
(= `eConv`, so the correction is exactly `2`): reported energy `-26`,
energy per atom `-26/4`; with pressure `0` the energy stays `-28`. -/
theorem run_pressure_correction_witness :
    envOkC.calcEnergy = .ok (-28) ∧ s0C.atoms.natoms ≠ 0 ∧ (0 : ℚ) < 2 ∧
    (run s0C envOkC none 2 0 true false "/home").state.energy
        = some ((-28) + 2 * envOkC.volume / eConv) ∧
    (run s0C envOkC none 2 0 true false "/home").state.energy_per_atom
        = some (((-28) + 2 * envOkC.volume / eConv) / (s0C.atoms.natoms : ℚ)) := by
  have hE : envOkC.calcEnergy = .ok (-28) := rfl
  have hn : s0C.atoms.natoms ≠ 0 := by decide
  have hp : (0 : ℚ) < 2 := by norm_num
  exact ⟨hE, hn, hp,
    (run_pressure_correction s0C envOkC none 2 0 true false "/home" (-28)
      (by decide) hE hn).1 hp⟩

/- ## C6 -/

/-- C6 (amended): when the band-gap read is requested and the stage's
energy/force evaluation (and timing read) already succeeded, a failure of the
band-gap read never leaves the stage marked successful: the `error` flag
keeps its incoming value (`True` for a freshly constructed calculator)
because `self.error = False` is unreachable, and the exception is either
swallowed by the except clause (ValueError/UnboundLocalError — e.g. a parse
failure) or propagates out of `run` (any other class — e.g. a missing
artifact's `FileNotFoundError`). -/
theorem run_gap_read_failure_never_successful (s : VASPState) (env : RunEnv)
    (stp : Option SetupMap) (p : ℚ) (lvl : ℤ) (clean : Bool) (cwd0 : String)
    (e0 : ℚ) (f : ForceArr) (tn : ℚ × ℤ) (e : PyErr)
    (hs : s.error = true) (hl : lvl ∈ ([0, 1, 2, 3, 4] : List ℤ))
    (hE : env.calcEnergy = .ok e0) (hn : s.atoms.natoms ≠ 0)
    (hF : env.forcesRes = .ok f) (hO : read_OUTCAR env.outcar = .ok tn)
    (hg : env.gapRes = .error e) :
    (run s env stp p lvl clean true cwd0).state.error = true ∧
    (caughtByRun e = true → (run s env stp p lvl clean true cwd0).exc = none) ∧
    (caughtByRun e = false →
      (run s env stp p lvl clean true cwd0).exc = some e) := by
  rw [run_eq_runFinish s env stp p lvl clean true cwd0 hl]
  obtain ⟨h2, h1⟩ := runTry_gap_failure { s with pstress := p } env clean e0 f
    tn e hE hn hF hO hg
  refine ⟨?_, ?_, ?_⟩
  · rw [runFinish_state, h1]
    exact hs
  · intro hc
    exact runFinish_exc_caught _ _ _ e h2 hc
  · intro hc
    exact runFinish_exc_uncaught _ _ _ e h2 hc

/-- C6 witness: with a caught-class gap failure the stage exits without
exception but with `error = True`; instantiating the theorem at the concrete
gap-failing environment. -/
theorem run_gap_read_failure_never_successful_witness :
    s0C.error = true ∧ envGapFailC.gapRes = .error .valueError ∧
    (run s0C envGapFailC none 0 0 true true "/home").state.error = true ∧
    (run s0C envGapFailC none 0 0 true true "/home").exc = none := by
  have h1 : read_OUTCAR_scan ["Elapsed time : 5"] = .ok (5, 0) := by decide
  have hO : read_OUTCAR envGapFailC.outcar = .ok (5, 0) := h1
  have hmain := run_gap_read_failure_never_successful s0C envGapFailC none 0 0
    true "/home" (-28) ⟨0⟩ (5, 0) .valueError rfl (by decide) rfl (by decide)
    rfl hO rfl
  exact ⟨rfl, rfl, hmain.1, hmain.2.1 rfl⟩

/-- C6 counterexample: the concrete gap-failing run has a successfully read
energy (`-28`) yet its outcome is `error = True`, contradicting the claim
that a gap parsing failure leaves the stage marked successful. -/
theorem run_gap_parse_failure_marks_stage_failed :
    (run s0C envGapFailC none 0 0 true true "/home").state.energy
        = some (-28) ∧
    (run s0C envGapFailC none 0 0 true true "/home").state.error = true := by
  have h1 : read_OUTCAR_scan ["Elapsed time : 5"] = .ok (5, 0) := by decide
  constructor <;>
    norm_num [run, runFinish, runTry, set_vasp, s0C, freshState, envGapFailC,
      envOkC, atomsC, filesAll, read_OUTCAR, h1, cleanFiles, caughtByRun,
      eConv, Except.map]

/- ## C10 -/

/-- C10: in `single_optimize`, when `calc.run` returns without exception,
a failure of the conversion back to pyxtal (`to_pyxtal`) or of the lattice
canonicalization (`optimize_lattice`) — both caught by the bare `except:` —
yields exactly the calculator-failure sentinel quadruple
`(None, 100000, 0, True)`, the same value returned when `calc.error` is set,
so the pipeline treats both failure kinds identically. -/
theorem single_optimize_conversion_failure_sentinel (env : StageEnv)
    (toAse : PStruct → AtomsObj) (inp : StrucInput) (lvl : ℤ) (p : ℚ)
    (stp : Option SetupMap) (path : String) (clean : Bool) (cwd0 : String)
    (s0 : VASPState)
    (hInit : (VASP_init toAse inp path env.dirExists).1 = .ok s0)
    (hexc : (run s0 env.renv stp p lvl clean false cwd0).exc = none)
    (hfail : (run s0 env.renv stp p lvl clean false cwd0).state.error = true ∨
      (∃ e, env.toPyxtalRes = .error e) ∨
      (∃ ps e, env.toPyxtalRes = .ok ps ∧ env.optLat ps = .error e)) :
    (single_optimize env toAse inp lvl p stp path clean cwd0).res
      = .ok (none, 100000, 0, true) := by
  rcases hVI : VASP_init toAse inp path env.dirExists with ⟨r, b⟩
  rw [hVI] at hInit
  simp only at hInit
  subst hInit
  simp only [single_optimize, hVI, hexc]
  by_cases herr : (run s0 env.renv stp p lvl clean false cwd0).state.error
  · simp [herr]
  · simp only [herr, if_false]
    rcases hfail with hfail | ⟨e, he⟩ | ⟨ps, e, hps, he⟩
    · exact absurd hfail herr
    · simp [he]
    · simp [hps, he]

/-- C10 witness: a run with `error = False` but a failing `to_pyxtal`
conversion returns the sentinel quadruple. -/
theorem single_optimize_conversion_failure_sentinel_witness :
    (run (freshState (toAseC strucC) "tmp") stageConvFailC.renv none 0 0 true
        false "/home").exc = none ∧
    stageConvFailC.toPyxtalRes = .error .valueError ∧
    (single_optimize stageConvFailC toAseC (.pyx strucC) 0 0 none "tmp" true
        "/home").res = .ok (none, 100000, 0, true) := by
  have h1 : read_OUTCAR_scan ["Elapsed time : 5"] = .ok (5, 0) := by decide
  have hexc : (run (freshState (toAseC strucC) "tmp") stageConvFailC.renv none
      0 0 true false "/home").exc = none := by
    norm_num [run, runFinish, runTry, set_vasp, freshState, stageConvFailC,
      stageOkC, envOkC, toAseC, strucC, filesAll, read_OUTCAR, h1, cleanFiles,
      caughtByRun, eConv]
  exact ⟨hexc, rfl,
    single_optimize_conversion_failure_sentinel stageConvFailC toAseC
      (.pyx strucC) 0 0 none "tmp" true "/home"
      (freshState (toAseC strucC) "tmp") rfl hexc
      (Or.inr (Or.inl ⟨.valueError, rfl⟩))⟩

/- ## Pipeline short-circuit lemma (shared by the C2 and C3 theorems) -/

/-- If iterations `0 .. k-1` of the `optimize` loop all succeed (as captured
by `loopState`) and iteration `k` reports an error or a lattice rejected by
`good_lattice`, the loop returns the sentinel `(None, 100000, 0, True)` after
exactly `k + 1` stage invocations. -/
theorem optimizeLoop_fail (envs : ℕ → StageEnv) (toAse : PStruct → AtomsObj)
    (gl : Option PStruct → Bool) (pstress : ℚ) (setup : Option SetupMap)
    (path : String) (clean : Bool) :
    ∀ (k : ℕ) (levels : List ℤ) (i : ℕ) (inp : StrucInput) (tt : ℚ)
      (cwd : String) (inp2 : StrucInput) (tt2 : ℚ) (cwd2 : String) (lvl : ℤ)
      (post : List ℤ) (sO : Option PStruct) (e t : ℚ) (err : Bool),
      loopState envs toAse gl pstress setup path clean k levels i inp tt cwd
        = some (inp2, tt2, cwd2) →
      levels.drop k = lvl :: post →
      (single_optimize (envs (i + k)) toAse inp2 lvl pstress setup path clean
          cwd2).res = .ok (sO, e, t, err) →
      (err || !gl sO) = true →
      optimizeLoop envs toAse gl pstress setup path clean levels i inp tt cwd
        = { res := .ok (none, 100000, 0, true),
            cwd := (single_optimize (envs (i + k)) toAse inp2 lvl pstress
              setup path clean cwd2).cwd,
            invoked := k + 1 }
  | 0, levels, i, inp, tt, cwd, inp2, tt2, cwd2, lvl, post, sO, e, t, err,
      h1, h2, h3, h4 => by
    simp only [loopState, Option.some.injEq, Prod.mk.injEq] at h1
    obtain ⟨h5, h6, h7⟩ := h1
    subst h5 h6 h7
    rw [List.drop_zero] at h2
    subst h2
    simp only [Nat.add_zero] at h3 ⊢
    rw [optimizeLoop.eq_def]
    simp only [h3, h4, if_true]
  | k + 1, levels, i, inp, tt, cwd, inp2, tt2, cwd2, lvl, post, sO, e, t, err,
      h1, h2, h3, h4 => by
    cases levels with
    | nil => simp [loopState] at h1
    | cons lvl0 rest =>
      simp only [loopState] at h1
      rcases hso : (single_optimize (envs i) toAse inp lvl0 pstress setup path
          clean cwd).res with e' | ⟨strucO, e0', t0, err0⟩ <;>
        rw [hso] at h1
      · simp at h1
      simp only at h1
      by_cases hgd : (err0 || !gl strucO) = true
      · rw [if_pos hgd] at h1
        simp at h1
      rw [if_neg hgd] at h1
      rw [List.drop_succ_cons] at h2
      rw [show i + (k + 1) = i + 1 + k from by omega] at h3 ⊢
      have ih := optimizeLoop_fail envs toAse gl pstress setup path clean
        k rest (i + 1) (toInput strucO) (tt + t0)
        ((single_optimize (envs i) toAse inp lvl0 pstress setup path clean
          cwd).cwd) inp2 tt2 cwd2 lvl post sO e t err h1 h2 h3 h4
      have hgd2 : (err0 || !gl strucO) = false := by simpa using hgd
      cases rest with
      | nil => simp at h2
      | cons r0 rs =>
        rw [optimizeLoop.eq_def]
        simp only [hso, hgd2, Bool.false_eq_true, if_false]
        rw [ih]

/- ## Concrete pipeline evaluations (shared by the pipeline check theorems) -/

/-- Concrete evaluation: stage 0 of `envsC` succeeds with energy per atom
`-7`, cpu time `5`. -/
theorem stage0C_eval :
    (single_optimize (envsC 0) toAseC (.pyx strucC) 0 0 none "tmp" true
      "/home").res = .ok (some psC1, -7, 5, false) := by
  have h1 : read_OUTCAR_scan ["Elapsed time : 5"] = .ok (5, 0) := by decide
  norm_num [single_optimize, VASP_init, run, runFinish, runTry, set_vasp,
    freshState, envsC, stageOkC, envOkC, toAseC, strucC, psC1, atomsC,
    filesAll, read_OUTCAR, h1, cleanFiles, caughtByRun, eConv]

/-- Concrete evaluation: stage 1 of `envsC` fails in the calculator and
returns the sentinel quadruple. -/
theorem stage1C_eval :
    (single_optimize (envsC 1) toAseC (.pyx psC1) 1 0 none "tmp" true
      "/home").res = .ok (none, 100000, 0, true) := by
  norm_num [single_optimize, VASP_init, run, runFinish, runTry, set_vasp,
    freshState, envsC, stageOkC, stageFailC, envOkC, envFailC, toAseC, psC1,
    atomsC, filesAll, read_OUTCAR, cleanFiles, caughtByRun, eConv]

/-- Concrete evaluation: after the successful stage 0 the loop state is the
converted structure with 5 seconds accumulated. -/
theorem loopStateC_eval :
    loopState envsC toAseC glC 0 none "tmp" true 1 [0, 1] 0 (.pyx strucC) 0
      "/home" = some (.pyx psC1, 5, "/home") := by
  have h1 : read_OUTCAR_scan ["Elapsed time : 5"] = .ok (5, 0) := by decide
  norm_num [loopState, single_optimize, VASP_init, run, runFinish, runTry,
    set_vasp, freshState, envsC, stageOkC, envOkC, toAseC, strucC, psC1,
    atomsC, filesAll, read_OUTCAR, h1, cleanFiles, caughtByRun, eConv, glC,
    toInput]

/- ## C3 -/

/-- C3: if stages `0 .. k-1` of the pipeline all succeeded with valid
lattices (hypothesis `loopState ... = some ...`) and the stage at position
`k` returns an error flag or a structure rejected by `good_lattice`, then the
pipeline result is `failed = true` with the sentinel energy `100000`, and
exactly `k + 1` stages were invoked — no stage at a position after `k` ever
runs. -/
theorem optimize_short_circuit_on_failure (envs : ℕ → StageEnv)
    (toAse : PStruct → AtomsObj) (gl : Option PStruct → Bool) (struc : PStruct)
    (path : String) (levels : List ℤ) (pstress : ℚ) (setup : Option SetupMap)
    (clean : Bool) (cwd0 : String) (k : ℕ) (inp2 : StrucInput) (tt2 : ℚ)
    (cwd2 : String) (lvl : ℤ) (post : List ℤ) (sO : Option PStruct) (e t : ℚ)
    (err : Bool)
    (h1 : loopState envs toAse gl pstress setup path clean k levels 0
      (.pyx struc) 0 cwd0 = some (inp2, tt2, cwd2))
    (h2 : levels.drop k = lvl :: post)
    (h3 : (single_optimize (envs k) toAse inp2 lvl pstress setup path clean
      cwd2).res = .ok (sO, e, t, err))
    (h4 : err = true ∨ gl sO = false) :
    (optimize envs toAse gl struc path levels pstress setup clean cwd0).res
        = .ok (none, 100000, 0, true) ∧
    (optimize envs toAse gl struc path levels pstress setup clean
        cwd0).invoked = k + 1 := by
  have h3b : (single_optimize (envs (0 + k)) toAse inp2 lvl pstress setup path
      clean cwd2).res = .ok (sO, e, t, err) := by rwa [Nat.zero_add]
  have h4b : (err || !gl sO) = true := by
    rcases h4 with h | h <;> simp [h]
  have hmain := optimizeLoop_fail envs toAse gl pstress setup path clean k
    levels 0 (.pyx struc) 0 cwd0 inp2 tt2 cwd2 lvl post sO e t err h1 h2 h3b
    h4b
  unfold optimize
  rw [hmain]
  exact ⟨rfl, rfl⟩

/-- C3 witness: with stage 0 succeeding and stage 1 failing on
`levels = [0, 1]`, the pipeline returns the sentinel result after exactly 2
invocations. -/
theorem optimize_short_circuit_on_failure_witness :
    loopState envsC toAseC glC 0 none "tmp" true 1 [0, 1] 0 (.pyx strucC) 0
        "/home" = some (.pyx psC1, 5, "/home") ∧
    (single_optimize (envsC 1) toAseC (.pyx psC1) 1 0 none "tmp" true
        "/home").res = .ok (none, 100000, 0, true) ∧
    (optimize envsC toAseC glC strucC "tmp" [0, 1] 0 none true "/home").res
        = .ok (none, 100000, 0, true) ∧
    (optimize envsC toAseC glC strucC "tmp" [0, 1] 0 none true
        "/home").invoked = 2 := by
  have hmain := optimize_short_circuit_on_failure envsC toAseC glC strucC
    "tmp" [0, 1] 0 none true "/home" 1 (.pyx psC1) 5 "/home" 1 [] none 100000
    0 true loopStateC_eval (by decide) stage1C_eval (Or.inl rfl)
  exact ⟨loopStateC_eval, stage1C_eval, hmain.1, hmain.2⟩

/- ## C2 -/

/-- C2 (amended): if the stage at position `k` fails (or yields an invalid
lattice) while stages `0 .. k-1` succeeded, the pipeline returns the failure
quadruple `(None, 100000, 0, True)` whose totalTime field is the constant
`0` — not the sum of the cpu times of the stages run so far. -/
theorem optimize_failure_returns_time_zero (envs : ℕ → StageEnv)
    (toAse : PStruct → AtomsObj) (gl : Option PStruct → Bool) (struc : PStruct)
    (path : String) (levels : List ℤ) (pstress : ℚ) (setup : Option SetupMap)
    (clean : Bool) (cwd0 : String) (k : ℕ) (inp2 : StrucInput) (tt2 : ℚ)
    (cwd2 : String) (lvl : ℤ) (post : List ℤ) (sO : Option PStruct) (e t : ℚ)
    (err : Bool)
    (h1 : loopState envs toAse gl pstress setup path clean k levels 0
      (.pyx struc) 0 cwd0 = some (inp2, tt2, cwd2))
    (h2 : levels.drop k = lvl :: post)
    (h3 : (single_optimize (envs k) toAse inp2 lvl pstress setup path clean
      cwd2).res = .ok (sO, e, t, err))
    (h4 : err = true ∨ gl sO = false) :
    (optimize envs toAse gl struc path levels pstress setup clean cwd0).res
      = .ok (none, 100000, (0 : ℚ), true) := by
  have h3b : (single_optimize (envs (0 + k)) toAse inp2 lvl pstress setup path
      clean cwd2).res = .ok (sO, e, t, err) := by rwa [Nat.zero_add]
  have h4b : (err || !gl sO) = true := by
    rcases h4 with h | h <;> simp [h]
  have hmain := optimizeLoop_fail envs toAse gl pstress setup path clean k
    levels 0 (.pyx struc) 0 cwd0 inp2 tt2 cwd2 lvl post sO e t err h1 h2 h3b
    h4b
  unfold optimize
  rw [hmain]

/-- C2 witness: the concrete failing pipeline returns totalTime `0`. -/
theorem optimize_failure_returns_time_zero_witness :
    loopState envsC toAseC glC 0 none "tmp" true 1 [0, 1] 0 (.pyx strucC) 0
        "/home" = some (.pyx psC1, 5, "/home") ∧
    (optimize envsC toAseC glC strucC "tmp" [0, 1] 0 none true "/home").res
        = .ok (none, 100000, (0 : ℚ), true) :=
  ⟨loopStateC_eval,
    optimize_failure_returns_time_zero envsC toAseC glC strucC "tmp" [0, 1] 0
      none true "/home" 1 (.pyx psC1) 5 "/home" 1 [] none 100000 0 true
      loopStateC_eval (by decide) stage1C_eval (Or.inl rfl)⟩

/-- C2 counterexample: stage 0 succeeds with cpu time 5, stage 1 fails (cpu
time 0); the claim predicts `totalTime = 5 + 0 = 5`, but the pipeline
returns `0`. -/
theorem optimize_failure_time_not_accumulated :
    (single_optimize (envsC 0) toAseC (.pyx strucC) 0 0 none "tmp" true
        "/home").res = .ok (some psC1, -7, 5, false) ∧
    (single_optimize (envsC 1) toAseC (.pyx psC1) 1 0 none "tmp" true
        "/home").res = .ok (none, 100000, 0, true) ∧
    (optimize envsC toAseC glC strucC "tmp" [0, 1] 0 none true "/home").res
        = .ok (none, 100000, (0 : ℚ), true) ∧
    (5 : ℚ) + 0 ≠ 0 := by
  refine ⟨stage0C_eval, stage1C_eval, ?_, by norm_num⟩
  have h1 : read_OUTCAR_scan ["Elapsed time : 5"] = .ok (5, 0) := by decide
  norm_num [optimize, optimizeLoop, single_optimize, VASP_init, run,
    runFinish, runTry, set_vasp, freshState, envsC, stageOkC, stageFailC,
    envOkC, envFailC, toAseC, strucC, psC1, atomsC, filesAll, read_OUTCAR,
    h1, cleanFiles, caughtByRun, eConv, glC, toInput]

end PyXtalVASP
